import Mathlib

/-!
Verification development for the threejs-viewer scene-synchronization
library.  The repository ships only its tests and example scripts; the
library itself (color mapping engine, object registry, command encoder,
animation timeline, viewer client) is specified in `spec.md`.  Each
definition below is therefore modelled from the spec, with real numbers
embedded as rationals.
-/

namespace ThreejsViewer

/-! ## Color Mapping Engine (spec section 4.1) -/

/-- RGB triple with components intended to lie in `[0, 1]`. -/
abbrev RGB := ℚ × ℚ × ℚ

/-- Clamp a rational to the interval `[0, 1]`. -/
def clamp01 (x : ℚ) : ℚ := max 0 (min 1 x)

/-- Linear interpolation between two scalars. -/
def lerp (a b t : ℚ) : ℚ := a + (b - a) * t

/-- Componentwise linear interpolation between two RGB triples. -/
def lerp3 (a b : RGB) (t : ℚ) : RGB :=
  (lerp a.1 b.1 t, lerp a.2.1 b.2.1 t, lerp a.2.2 b.2.2 t)

/-- Modelled from the spec: the `viridis` control-point table (the concrete
numeric control points of the missing library are unknown; representative
values with every component in `[0, 1]` are used). -/
def viridisTable : List RGB :=
  [(267/1000, 5/1000, 329/1000),
   (283/1000, 141/1000, 458/1000),
   (254/1000, 265/1000, 530/1000),
   (207/1000, 372/1000, 553/1000),
   (164/1000, 471/1000, 558/1000),
   (128/1000, 567/1000, 551/1000),
   (135/1000, 659/1000, 518/1000),
   (267/1000, 749/1000, 441/1000),
   (478/1000, 821/1000, 318/1000),
   (741/1000, 873/1000, 150/1000),
   (993/1000, 906/1000, 144/1000)]

/-- Modelled from the spec: the `plasma` control-point table. -/
def plasmaTable : List RGB :=
  [(50/1000, 30/1000, 528/1000),
   (417/1000, 1/1000, 658/1000),
   (693/1000, 165/1000, 564/1000),
   (881/1000, 392/1000, 383/1000),
   (988/1000, 652/1000, 211/1000),
   (940/1000, 975/1000, 131/1000)]

/-- Modelled from the spec: the `turbo` control-point table. -/
def turboTable : List RGB :=
  [(190/1000, 72/1000, 232/1000),
   (275/1000, 408/1000, 899/1000),
   (150/1000, 736/1000, 760/1000),
   (454/1000, 921/1000, 389/1000),
   (832/1000, 866/1000, 217/1000),
   (996/1000, 544/1000, 121/1000),
   (789/1000, 199/1000, 24/1000),
   (480/1000, 16/1000, 11/1000)]

/-- Names of the supported colormaps. -/
def supportedColormaps : List String := ["viridis", "plasma", "turbo"]

/-- Modelled from the spec: look up a named colormap table; an unknown
name silently falls back to `viridis` (spec section 4.1). -/
def colormapTable (name : String) : List RGB :=
  if name = "viridis" then viridisTable
  else if name = "plasma" then plasmaTable
  else if name = "turbo" then turboTable
  else viridisTable

/-- Modelled from the spec: interpolate a normalized scalar `u` in `[0, 1]`
between the two nearest control points of a table using linear
interpolation in RGB space. -/
def tableLookup (tbl : List RGB) (u : ℚ) : RGB :=
  if tbl.length ≤ 1 then tbl.headD (0, 0, 0)
  else
    let p : ℚ := u * ((tbl.length : ℚ) - 1)
    let i : ℕ := min (Int.toNat ⌊p⌋) (tbl.length - 2)
    let t : ℚ := p - (i : ℚ)
    lerp3 (tbl.getD i (0, 0, 0)) (tbl.getD (i + 1) (0, 0, 0)) t

/-- Modelled from the spec: the missing library function
`ViewerClient._apply_colormap(values, colormap, cmin, cmax)`.
Each value is normalized by `u = (v - cmin) / (cmax - cmin)` clamped to
`[0, 1]`; when `cmax == cmin` every value maps to `u = 0` exactly; the
normalized value is interpolated in the named table (unknown names fall
back to `viridis`). -/
def applyColormap (values : List ℚ) (colormap : String) (cmin cmax : ℚ) :
    List RGB :=
  let tbl := colormapTable colormap
  values.map (fun v =>
    let u : ℚ := if cmax = cmin then 0 else clamp01 ((v - cmin) / (cmax - cmin))
    tableLookup tbl u)

/-! ## Object Registry (spec section 4.2) -/

/-- Declared object kinds (spec section 3). -/
inductive ObjectKind
  | primitive
  | polyline
  | model
deriving DecidableEq, Repr

/-- Modelled from the spec: the object record held by the missing Object
Registry — `kind`, a logical `declared_at` sequence number, and an opaque
`last_known_transform` snapshot. -/
structure ObjectRecord where
  kind : ObjectKind
  declared_at : ℕ
  last_known_transform : List ℚ
deriving DecidableEq, Repr

/-- Modelled from the spec: the missing Object Registry, an association
list from object name to record plus a logical declaration counter. -/
structure Registry where
  records : List (String × ObjectRecord)
  counter : ℕ
deriving DecidableEq, Repr

/-- The empty registry. -/
def Registry.empty : Registry := ⟨[], 0⟩

/-- Identity transform used as the initial `last_known_transform`. -/
def identityTransform : List ℚ :=
  [1, 0, 0, 0, 0, 1, 0, 0, 0, 0, 1, 0, 0, 0, 0, 1]

/-- Modelled from the spec: `declare(name, kind)` — overwrites silently
if the name already exists (last writer wins). -/
def Registry.declare (r : Registry) (name : String) (kind : ObjectKind) :
    Registry :=
  ⟨(name, ⟨kind, r.counter, identityTransform⟩) ::
      r.records.filter (fun p => p.1 ≠ name),
    r.counter + 1⟩

/-- Modelled from the spec: `exists(name)` (named `existsObj` because
`exists` is reserved in Lean). -/
def Registry.existsObj (r : Registry) (name : String) : Bool :=
  r.records.any (fun p => p.1 = name)

/-- Modelled from the spec: `kind_of(name)` — `none` plays the role of
the NotFound result. -/
def Registry.kind_of (r : Registry) (name : String) : Option ObjectKind :=
  (r.records.find? (fun p => p.1 = name)).map (fun p => p.2.kind)

/-- The recorded last-known transform of a declared object. -/
def Registry.transform_of (r : Registry) (name : String) : Option (List ℚ) :=
  (r.records.find? (fun p => p.1 = name)).map
    (fun p => p.2.last_known_transform)

/-- Modelled from the spec: `forget(name)`. -/
def Registry.forget (r : Registry) (name : String) : Registry :=
  ⟨r.records.filter (fun p => p.1 ≠ name), r.counter⟩

/-- Modelled from the spec: `clear_all()`. -/
def Registry.clear_all (_ : Registry) : Registry := Registry.empty

/-- Update the recorded last-known transform of a declared object;
returns `none` (the `UnknownObject` condition) when the name is
undeclared. -/
def Registry.updateTransform (r : Registry) (name : String) (t : List ℚ) :
    Option Registry :=
  if r.existsObj name then
    some ⟨r.records.map (fun p =>
        if p.1 = name then (p.1, { p.2 with last_known_transform := t })
        else p),
      r.counter⟩
  else none

/-! ## Command Encoder: batch update (spec sections 4.3 and 7) -/

/-- Modelled from the spec: the missing `batch_update` of the Command
Encoder.  Each entry targeting a declared name mutates the recorded
transform of that object; an entry keyed by an undeclared name raises nothing:
its `UnknownObject` condition is logged (collected in the returned list),
that single entry is skipped, and the batch continues (spec section 7
policy: fail the single entry, log, continue). -/
def batch_update (r : Registry) (updates : List (String × List ℚ)) :
    Registry × List String :=
  match updates with
  | [] => (r, [])
  | u :: rest =>
    match r.updateTransform u.1 u.2 with
    | some r2 => batch_update r2 rest
    | none =>
      let res := batch_update r rest
      (res.1, u.1 :: res.2)

/-! ## Command Encoder: polylines and the transport (spec sections 4.3, 6, 7) -/

/-- Error kinds of the missing library (spec section 7). -/
inductive ViewerError
  | unknownObject (name : String)
  | malformedPayload (msg : String)
  | transportFailure (msg : String)
deriving DecidableEq, Repr

/-- Wire traffic handed to the Transport Session: a JSON command (kept as
its command kind plus the fields relevant here) or a binary frame of the
Binary Payload Channel (spec section 6). -/
inductive WireMessage
  | json (kind : String) (name : String) (pointCount : ℕ) (binaryRef : ℕ)
      (colorData : List RGB)
  | binary (binaryRef : ℕ) (elementCount : ℕ) (payload : List ℚ)
deriving DecidableEq, Repr

/-- Modelled from the spec: producer-side client state — the Object
Registry, the ordered list of messages already handed to the transport,
and the next binary reference id. -/
structure ClientState where
  registry : Registry
  sent : List WireMessage
  nextRef : ℕ
deriving DecidableEq, Repr

/-- Flatten a point list into the row-major triple buffer of the binary
frame (spec section 6). -/
def flattenPoints (points : List (ℚ × ℚ × ℚ)) : List ℚ :=
  points.foldr (fun p acc => p.1 :: p.2.1 :: p.2.2 :: acc) []

/-- Modelled from the spec: the missing `add_polyline(name, points,
colors?, colormap, line_width)`.  Validation happens before any message
is handed to the transport: fewer than 2 points, or a `colors` array
whose length differs from `points`, is rejected with `MalformedPayload`
and the state is left untouched.  On success the object is declared, the
JSON command is sent, and the point data follows on the Binary Payload
Channel. -/
def add_polyline (s : ClientState) (name : String)
    (points : List (ℚ × ℚ × ℚ)) (colors : Option (List ℚ))
    (colormap : String) : Except ViewerError ClientState :=
  if points.length < 2 then
    .error (.malformedPayload "polyline needs at least 2 points")
  else
    match colors with
    | some cs =>
      if cs.length ≠ points.length then
        .error (.malformedPayload "colors length must match points length")
      else
        .ok ⟨s.registry.declare name .polyline,
          s.sent ++
            [.json "declare_polyline" name points.length s.nextRef
               (applyColormap cs colormap ((cs.min?).getD 0)
                 ((cs.max?).getD 0)),
             .binary s.nextRef points.length (flattenPoints points)],
          s.nextRef + 1⟩
    | none =>
      .ok ⟨s.registry.declare name .polyline,
        s.sent ++
          [.json "declare_polyline" name points.length s.nextRef [],
           .binary s.nextRef points.length (flattenPoints points)],
        s.nextRef + 1⟩

/-! ## Animation Timeline, Markers, Recorder (spec sections 3 and 4.4) -/

/-- Modelled from the spec: a Frame — `time` plus mappings from object
name to transform, packed RGB color, visibility and opacity. -/
structure Frame where
  time : ℚ
  transforms : List (String × List ℚ)
  colors : List (String × ℕ) := []
  visibility : List (String × Bool) := []
  opacity : List (String × ℚ) := []
deriving DecidableEq, Repr

/-- Modelled from the spec: a timeline Marker — `time`, `label` and a
packed RGB `color` (default white if unspecified). -/
structure Marker where
  time : ℚ
  label : String
  color : ℕ := 0xFFFFFF
deriving DecidableEq, Repr

/-- Modelled from the spec: the missing Animation Timeline — a `loop`
flag, the ordered sequence of Frames, and the Markers. -/
structure Animation where
  loop : Bool := false
  frames : List Frame := []
  markers : List Marker := []
deriving DecidableEq, Repr

/-- Frame count of the timeline. -/
def Animation.n_frames (a : Animation) : ℕ := a.frames.length

/-- Duration: the time of the last frame, `0` if the timeline is empty. -/
def Animation.duration (a : Animation) : ℚ :=
  (a.frames.getLast?).elim 0 (fun f => f.time)

/-- Estimated fps from the spacing of the first two frames; zero when the
timeline has fewer than two frames. -/
def Animation.fps (a : Animation) : ℚ :=
  match a.frames with
  | f0 :: f1 :: _ => if f1.time = f0.time then 0 else 1 / (f1.time - f0.time)
  | _ => 0

/-- Modelled from the spec: `add_frame` appends a Frame built from the
caller-supplied absolute time and per-object mappings. -/
def Animation.add_frame (a : Animation) (time : ℚ)
    (transforms : List (String × List ℚ))
    (colors : List (String × ℕ) := [])
    (visibility : List (String × Bool) := [])
    (opacity : List (String × ℚ) := []) : Animation :=
  { a with frames := a.frames ++ [⟨time, transforms, colors, visibility, opacity⟩] }

/-- Modelled from the spec: `add_marker` appends a Marker. -/
def Animation.add_marker (a : Animation) (time : ℚ) (label : String)
    (color : ℕ := 0xFFFFFF) : Animation :=
  { a with markers := a.markers ++ [⟨time, label, color⟩] }

/-! ## Serialization payload (spec sections 4.4 and 6) -/

/-- Serialized form of a Marker inside the `load_animation` payload. -/
structure MarkerDict where
  time : ℚ
  label : String
  color : ℕ
deriving DecidableEq, Repr

/-- Serialized form of a Frame inside the `load_animation` payload. -/
structure FrameDict where
  time : ℚ
  transforms : List (String × List ℚ)
  colors : List (String × ℕ)
  visibility : List (String × Bool)
  opacity : List (String × ℚ)
deriving DecidableEq, Repr

/-- Modelled from the spec: the single wire payload consumed by
`load_animation` — `\x7bloop, duration, frames, markers\x7d`. -/
structure AnimationDict where
  loop : Bool
  duration : ℚ
  frames : List FrameDict
  markers : List MarkerDict
deriving DecidableEq, Repr

/-- Serialize one Marker. -/
def Marker.to_dict (m : Marker) : MarkerDict := ⟨m.time, m.label, m.color⟩

/-- Serialize one Frame. -/
def Frame.to_dict (f : Frame) : FrameDict :=
  ⟨f.time, f.transforms, f.colors, f.visibility, f.opacity⟩

/-- Modelled from the spec: `Animation.to_dict()` produces the single
wire payload for `load_animation`. -/
def Animation.to_dict (a : Animation) : AnimationDict :=
  ⟨a.loop, a.duration, a.frames.map Frame.to_dict, a.markers.map Marker.to_dict⟩

/-- Re-hydrate a Marker from its serialized form. -/
def markerOfDict (d : MarkerDict) : Marker := ⟨d.time, d.label, d.color⟩

/-- Re-hydrate a Frame from its serialized form. -/
def frameOfDict (d : FrameDict) : Frame :=
  ⟨d.time, d.transforms, d.colors, d.visibility, d.opacity⟩

/-- Modelled from the spec: re-hydration of a serialized payload back
into an Animation (the renderer-side consumption of the payload). -/
def animationOfDict (d : AnimationDict) : Animation :=
  ⟨d.loop, d.frames.map frameOfDict, d.markers.map markerOfDict⟩

/-! ## Recorder and from_function (spec section 4.4) -/

/-- Modelled from the spec: the fixed sample-time grid of the missing
`AnimationRecorder(duration, fps)` — the times `0, 1/fps, 2/fps, …`
strictly below `duration`. -/
def recorderTimes (duration fps : ℚ) : List ℚ :=
  (List.range ⌈duration * fps⌉₊).map (fun i : ℕ => (i : ℚ) / fps)

/-- Per-sample data returned by the user function handed to
`from_function`: the per-object mappings folded into one Frame. -/
structure FrameData where
  transforms : List (String × List ℚ) := []
  colors : List (String × ℕ) := []
  visibility : List (String × Bool) := []
  opacity : List (String × ℚ) := []

/-- Modelled from the spec: `Animation.from_function(fn, duration, fps,
loop)` — samples the recorder grid, invoking `fn(t)` at each time and
folding the result into a Frame via `add_frame`. -/
def Animation.from_function (fn : ℚ → FrameData) (duration fps : ℚ)
    (loop : Bool) : Animation :=
  (recorderTimes duration fps).foldl
    (fun a t =>
      let d := fn t
      a.add_frame t d.transforms d.colors d.visibility d.opacity)
    { loop := loop }

/-! ## Viewer client construction (tests in src/tests/test_client.py) -/

/-- Modelled from the spec: the missing `ViewerClient` as far as its
construction-visible state goes — the `host` and `port` attributes
(construction performs no connection). -/
structure ViewerClient where
  host : String
  port : ℕ
deriving DecidableEq, Repr

/-- Modelled from the spec: `ViewerClient(host="localhost", port=5666)`,
storing exactly the given host and port. -/
def mkViewerClient (host : String := "localhost") (port : ℕ := 5666) :
    ViewerClient :=
  ⟨host, port⟩

/-- Predicate: an RGB triple has every component within `[0, 1]`. -/
def inUnitInterval (c : RGB) : Prop :=
  0 ≤ c.1 ∧ c.1 ≤ 1 ∧ 0 ≤ c.2.1 ∧ c.2.1 ≤ 1 ∧ 0 ≤ c.2.2 ∧ c.2.2 ≤ 1

instance (c : RGB) : Decidable (inUnitInterval c) := by
  unfold inUnitInterval; infer_instance

/-- Building an Animation by successive `add_frame` calls, one per entry
of a time/content list, starting from a fresh timeline. -/
def buildAnimation (entries : List (ℚ × List (String × List ℚ))) :
    Animation :=
  entries.foldl (fun a e => a.add_frame e.1 e.2 [] [] []) {}

/-! ## Theorems -/

/-- C10: a ViewerClient constructed with no arguments has host
`"localhost"` and port `5666`, and one constructed with explicit host and
port stores exactly those values; construction performs no connection and
does not alter them. -/
theorem viewerClient_construction :
    mkViewerClient.host = "localhost" ∧ mkViewerClient.port = 5666 ∧
    ∀ (h : String) (p : ℕ),
      (mkViewerClient h p).host = h ∧ (mkViewerClient h p).port = p :=
  ⟨rfl, rfl, fun _ _ => ⟨rfl, rfl⟩⟩

/-- C9: declaring the same name twice with different kinds raises no
error (declare is total) and the second declaration fully replaces the
first: `kind_of` afterwards returns the second kind. -/
theorem declare_twice_last_writer_wins (r : Registry) (name : String)
    (k1 k2 : ObjectKind) (hk : k1 ≠ k2) :
    ((r.declare name k1).declare name k2).kind_of name = some k2 := by
  simp [Registry.declare, Registry.kind_of]

/-- Witness for C9 at a concrete registry and kinds. -/
theorem declare_twice_last_writer_wins_witness :
    ObjectKind.primitive ≠ ObjectKind.polyline ∧
    ((Registry.empty.declare "a" .primitive).declare "a" .polyline).kind_of
        "a" = some .polyline :=
  ⟨by decide,
   declare_twice_last_writer_wins Registry.empty "a" .primitive .polyline
     (by decide)⟩

/-- C3: with `cmax == cmin` the colormap application is total (no
division by zero), every value maps to `u = 0` exactly, and the result is
the same single RGB triple replicated once per input element. -/
theorem applyColormap_degenerate_range (v : List ℚ) (cmap : String)
    (c : ℚ) :
    applyColormap v cmap c c =
      List.replicate v.length (tableLookup (colormapTable cmap) 0) := by
  simp [applyColormap]

/-- C4: an unknown colormap name falls back to viridis: the output is
identical element-for-element to applying `"viridis"` on the same
inputs, and no error is raised (the function is total). -/
theorem applyColormap_unknown_name_falls_back (v : List ℚ) (cmap : String)
    (cmin cmax : ℚ) (h : cmap ∉ supportedColormaps) :
    applyColormap v cmap cmin cmax = applyColormap v "viridis" cmin cmax := by
  simp [supportedColormaps, List.mem_cons] at h
  obtain ⟨h1, h2, h3⟩ := h
  simp [applyColormap, colormapTable, h1, h2, h3]

/-- Witness for C4 at the test input of
`test_unknown_colormap_defaults_to_viridis`. -/
theorem applyColormap_unknown_name_falls_back_witness :
    "not_a_real_colormap" ∉ supportedColormaps ∧
    applyColormap [0, 1/2, 1] "not_a_real_colormap" 0 1 =
      applyColormap [0, 1/2, 1] "viridis" 0 1 :=
  ⟨by decide,
   applyColormap_unknown_name_falls_back [0, 1/2, 1] "not_a_real_colormap"
     0 1 (by decide)⟩

/-- C8: an `add_polyline` call whose colors array length differs from its
points array length is rejected with `MalformedPayload`: the call returns
an error, so no wire message — JSON command or binary frame — is handed
to the transport and the prior client state is unchanged. -/
theorem add_polyline_colors_length_mismatch (s : ClientState)
    (name : String) (points : List (ℚ × ℚ × ℚ)) (cs : List ℚ)
    (cmap : String) (h : cs.length ≠ points.length) :
    ∃ msg, add_polyline s name points (some cs) cmap =
      .error (.malformedPayload msg) := by
  unfold add_polyline
  by_cases hp : points.length < 2
  · exact ⟨"polyline needs at least 2 points", by simp [hp]⟩
  · exact ⟨"colors length must match points length", by simp [hp, h]⟩

/-- Witness for C8: two points, three colors. -/
theorem add_polyline_colors_length_mismatch_witness :
    ([(0 : ℚ), 1/2, 1].length ≠ [((0 : ℚ), (0 : ℚ), (0 : ℚ)), (1, 0, 0)].length) ∧
    ∃ msg,
      add_polyline ⟨Registry.empty, [], 0⟩ "helix"
          [((0 : ℚ), (0 : ℚ), (0 : ℚ)), (1, 0, 0)] (some [0, 1/2, 1])
          "viridis" =
        .error (.malformedPayload msg) :=
  ⟨by decide,
   add_polyline_colors_length_mismatch ⟨Registry.empty, [], 0⟩ "helix"
     [((0 : ℚ), (0 : ℚ), (0 : ℚ)), (1, 0, 0)] [0, 1/2, 1] "viridis"
     (by decide)⟩

theorem foldl_add_frame_frames
    (entries : List (ℚ × List (String × List ℚ))) (a0 : Animation) :
    (entries.foldl (fun a e => a.add_frame e.1 e.2 [] [] []) a0).frames =
      a0.frames ++ entries.map (fun e => ⟨e.1, e.2, [], [], []⟩) := by
  induction entries generalizing a0 with
  | nil => simp
  | cons e rest ih =>
    rw [List.foldl_cons, ih]
    simp [Animation.add_frame]

theorem getLast?_map_eq {α β : Type} (f : α → β) (l : List α) :
    (l.map f).getLast? = l.getLast?.map f :=
  List.getLast?_map f l

/-- C5: an Animation built by `n` `add_frame` calls with strictly
increasing times has `n_frames = n` and `duration` equal to the last
added time exactly; a fresh Animation has `n_frames = 0` and
`duration = 0`. -/
theorem animation_add_frame_count_duration
    (entries : List (ℚ × List (String × List ℚ)))
    (hmono : entries.Chain' (fun e1 e2 => e1.1 < e2.1)) :
    (buildAnimation entries).n_frames = entries.length ∧
    (∀ t tr, entries.getLast? = some (t, tr) →
      (buildAnimation entries).duration = t) ∧
    (∀ loop : Bool, (Animation.mk loop [] []).n_frames = 0 ∧
      (Animation.mk loop [] []).duration = 0) := by
  refine ⟨?_, ?_, fun loop => ⟨rfl, rfl⟩⟩
  · simp [buildAnimation, Animation.n_frames, foldl_add_frame_frames]
  · intro t tr hlast
    simp [buildAnimation, Animation.duration, foldl_add_frame_frames,
      getLast?_map_eq, hlast]

/-- Witness for C5: two frames at times 0 and 1. -/
theorem animation_add_frame_count_duration_witness :
    List.Chain' (fun (e1 e2 : ℚ × List (String × List ℚ)) => e1.1 < e2.1)
        [(0, []), (1, [])] ∧
    (buildAnimation [(0, []), (1, [])]).n_frames = 2 ∧
    (buildAnimation [(0, []), (1, [])]).duration = 1 :=
  ⟨by norm_num,
   (animation_add_frame_count_duration [(0, []), (1, [])] (by norm_num)).1,
   (animation_add_frame_count_duration [(0, []), (1, [])] (by norm_num)).2.1
     1 [] rfl⟩

theorem markerOfDict_to_dict (m : Marker) : markerOfDict m.to_dict = m := rfl

/-- C6: serialization round-trips — re-hydrating `to_dict()` preserves
the frame count, the marker count, and every marker (label, time and
color), and the payload carries the loop flag and duration of the
original Animation. -/
theorem animation_to_dict_roundtrip (a : Animation) :
    (animationOfDict a.to_dict).n_frames = a.n_frames ∧
    (animationOfDict a.to_dict).markers.length = a.markers.length ∧
    (animationOfDict a.to_dict).markers = a.markers ∧
    a.to_dict.loop = a.loop ∧
    a.to_dict.duration = a.duration := by
  have hm : ∀ l : List Marker, (l.map Marker.to_dict).map markerOfDict = l := by
    intro l
    induction l with
    | nil => rfl
    | cons m rest ih => simp [markerOfDict_to_dict, ih]
  refine ⟨?_, ?_, ?_, rfl, rfl⟩
  · simp [animationOfDict, Animation.to_dict, Animation.n_frames]
  · simp [animationOfDict, Animation.to_dict, hm]
  · simp [animationOfDict, Animation.to_dict, hm]

theorem from_function_frames (g : ℚ → FrameData) (ts : List ℚ)
    (a0 : Animation) :
    (ts.foldl (fun a t =>
        a.add_frame t (g t).transforms (g t).colors (g t).visibility
          (g t).opacity) a0).frames =
      a0.frames ++ ts.map (fun t =>
        ⟨t, (g t).transforms, (g t).colors, (g t).visibility,
          (g t).opacity⟩) := by
  induction ts generalizing a0 with
  | nil => simp
  | cons t rest ih =>
    rw [List.foldl_cons, ih]
    simp [Animation.add_frame]

/-- C7: the recorder samples exactly the grid `0, 1/fps, 2/fps, …`
strictly below `duration`; with `duration = 2` and `fps = 10` there are
exactly 20 sample times, the first `0` and the last `19/10`; and
`from_function` with `duration = 1`, `fps = 10` yields an Animation with
exactly 10 frames. -/
theorem recorder_times_grid (d fps : ℚ) (fn : ℚ → FrameData) (loop : Bool)
    (hfps : 0 < fps) :
    (∀ t : ℚ, t ∈ recorderTimes d fps ↔
      ∃ i : ℕ, t = (i : ℚ) / fps ∧ t < d) ∧
    (recorderTimes 2 10).length = 20 ∧
    (recorderTimes 2 10).head? = some 0 ∧
    (recorderTimes 2 10).getLast? = some (19/10) ∧
    (Animation.from_function fn 1 10 loop).n_frames = 10 := by
  have hceil2 : ⌈(2 : ℚ) * 10⌉₊ = 20 := by norm_num
  have hceil1 : ⌈(1 : ℚ) * 10⌉₊ = 10 := by norm_num
  refine ⟨?_, ?_, ?_, ?_, ?_⟩
  · intro t
    simp only [recorderTimes, List.mem_map, List.mem_range]
    constructor
    · rintro ⟨i, hi, rfl⟩
      refine ⟨i, rfl, ?_⟩
      rw [div_lt_iff₀ hfps]
      exact Nat.lt_ceil.mp hi
    · rintro ⟨i, rfl, hlt⟩
      refine ⟨i, ?_, rfl⟩
      rw [Nat.lt_ceil]
      exact (div_lt_iff₀ hfps).mp hlt
  · rw [recorderTimes, hceil2]
    simp
  · rw [recorderTimes, hceil2, List.head?_map,
      show (List.range 20).head? = some 0 from by decide]
    norm_num
  · rw [recorderTimes, hceil2]
    rfl
  · rw [Animation.n_frames, Animation.from_function, from_function_frames,
      recorderTimes, hceil1]
    simp

/-- Witness for C7 at `fps = 10`. -/
theorem recorder_times_grid_witness :
    (0 : ℚ) < 10 ∧
    ((∀ t : ℚ, t ∈ recorderTimes 2 10 ↔
        ∃ i : ℕ, t = (i : ℚ) / 10 ∧ t < 2) ∧
      (recorderTimes 2 10).length = 20 ∧
      (recorderTimes 2 10).head? = some 0 ∧
      (recorderTimes 2 10).getLast? = some (19/10) ∧
      (Animation.from_function (fun _ => {}) 1 10 true).n_frames = 10) :=
  ⟨by norm_num, recorder_times_grid 2 10 (fun _ => {}) true (by norm_num)⟩

theorem lerp_unit (a b t : ℚ) (ha0 : 0 ≤ a) (ha1 : a ≤ 1) (hb0 : 0 ≤ b)
    (hb1 : b ≤ 1) (ht0 : 0 ≤ t) (ht1 : t ≤ 1) :
    0 ≤ lerp a b t ∧ lerp a b t ≤ 1 := by
  unfold lerp
  constructor <;> nlinarith

theorem lerp3_unit (a b : RGB) (t : ℚ) (ha : inUnitInterval a)
    (hb : inUnitInterval b) (ht0 : 0 ≤ t) (ht1 : t ≤ 1) :
    inUnitInterval (lerp3 a b t) := by
  obtain ⟨ha1, ha2, ha3, ha4, ha5, ha6⟩ := ha
  obtain ⟨hb1, hb2, hb3, hb4, hb5, hb6⟩ := hb
  refine ⟨(lerp_unit _ _ _ ha1 ha2 hb1 hb2 ht0 ht1).1,
    (lerp_unit _ _ _ ha1 ha2 hb1 hb2 ht0 ht1).2,
    (lerp_unit _ _ _ ha3 ha4 hb3 hb4 ht0 ht1).1,
    (lerp_unit _ _ _ ha3 ha4 hb3 hb4 ht0 ht1).2,
    (lerp_unit _ _ _ ha5 ha6 hb5 hb6 ht0 ht1).1,
    (lerp_unit _ _ _ ha5 ha6 hb5 hb6 ht0 ht1).2⟩

theorem tableLookup_unit (tbl : List RGB) (hne : tbl ≠ [])
    (hb : ∀ c ∈ tbl, inUnitInterval c) (u : ℚ) (hu0 : 0 ≤ u)
    (hu1 : u ≤ 1) : inUnitInterval (tableLookup tbl u) := by
  by_cases hlen : tbl.length ≤ 1
  · rw [tableLookup, if_pos hlen]
    cases tbl with
    | nil => exact absurd rfl hne
    | cons c cs => exact hb c (List.mem_cons_self c cs)
  · rw [tableLookup, if_neg hlen]
    push_neg at hlen
    have h2 : 2 ≤ tbl.length := hlen
    set n := tbl.length with hn
    set p : ℚ := u * ((n : ℚ) - 1) with hp
    set i : ℕ := min (Int.toNat ⌊p⌋) (n - 2) with hi
    have hn1 : (1 : ℚ) ≤ (n : ℚ) - 1 := by
      have : (2 : ℚ) ≤ (n : ℚ) := by exact_mod_cast h2
      linarith
    have hp0 : 0 ≤ p := mul_nonneg hu0 (by linarith)
    have hpn : p ≤ (n : ℚ) - 1 := by
      rw [hp]
      nlinarith
    have hfloor0 : (0 : ℤ) ≤ ⌊p⌋ := Int.floor_nonneg.mpr hp0
    have htoNat : ((Int.toNat ⌊p⌋ : ℕ) : ℚ) = ((⌊p⌋ : ℤ) : ℚ) := by
      exact_mod_cast congrArg (fun z : ℤ => (z : ℚ))
        (Int.toNat_of_nonneg hfloor0)
    have hcastn2 : ((n - 2 : ℕ) : ℚ) = (n : ℚ) - 2 := by
      rw [Nat.cast_sub h2]
      norm_num
    have hi_le : i ≤ n - 2 := min_le_right _ _
    have hi_lt_n : i < n := by omega
    have hi1_lt_n : i + 1 < n := by omega
    have hiq_le_p : ((i : ℕ) : ℚ) ≤ p := by
      have h1 : ((i : ℕ) : ℚ) ≤ ((Int.toNat ⌊p⌋ : ℕ) : ℚ) := by
        exact_mod_cast min_le_left (Int.toNat ⌊p⌋) (n - 2)
      calc ((i : ℕ) : ℚ) ≤ ((⌊p⌋ : ℤ) : ℚ) := by rw [← htoNat]; exact h1
        _ ≤ p := Int.floor_le p
    have hp_le_i1 : p ≤ ((i : ℕ) : ℚ) + 1 := by
      by_cases hcase : Int.toNat ⌊p⌋ ≤ n - 2
      · have hieq : i = Int.toNat ⌊p⌋ := min_eq_left hcase
        have := Int.lt_floor_add_one p
        rw [hieq, htoNat]
        linarith
      · have hieq : i = n - 2 := min_eq_right (le_of_not_le hcase)
        rw [hieq, hcastn2]
        linarith
    apply lerp3_unit
    · exact hb _ (List.getD_eq_getElem tbl (0, 0, 0) hi_lt_n ▸
        List.getElem_mem hi_lt_n)
    · exact hb _ (List.getD_eq_getElem tbl (0, 0, 0) hi1_lt_n ▸
        List.getElem_mem hi1_lt_n)
    · linarith
    · linarith

theorem clamp01_unit (x : ℚ) : 0 ≤ clamp01 x ∧ clamp01 x ≤ 1 := by
  unfold clamp01
  exact ⟨le_max_left 0 _, max_le (by norm_num) (min_le_left 1 x)⟩

theorem viridisTable_unit : ∀ c ∈ viridisTable, inUnitInterval c := by
  norm_num [viridisTable, inUnitInterval]

theorem plasmaTable_unit : ∀ c ∈ plasmaTable, inUnitInterval c := by
  norm_num [plasmaTable, inUnitInterval]

theorem turboTable_unit : ∀ c ∈ turboTable, inUnitInterval c := by
  norm_num [turboTable, inUnitInterval]

theorem colormapTable_unit (name : String) :
    colormapTable name ≠ [] ∧ ∀ c ∈ colormapTable name, inUnitInterval c := by
  unfold colormapTable
  split_ifs
  · exact ⟨by simp [viridisTable], viridisTable_unit⟩
  · exact ⟨by simp [plasmaTable], plasmaTable_unit⟩
  · exact ⟨by simp [turboTable], turboTable_unit⟩
  · exact ⟨by simp [viridisTable], viridisTable_unit⟩

/-- C2: for any input sequence, colormap name and `cmin < cmax`, the
output has the same length as the input and every RGB component lies in
`[0, 1]`, even for input values outside `[cmin, cmax]` (values are
clamped during normalization). -/
theorem applyColormap_length_and_bounds (v : List ℚ) (cmap : String)
    (cmin cmax : ℚ) (h : cmin < cmax) :
    (applyColormap v cmap cmin cmax).length = v.length ∧
    ∀ c ∈ applyColormap v cmap cmin cmax, inUnitInterval c := by
  obtain ⟨hne, hb⟩ := colormapTable_unit cmap
  constructor
  · simp [applyColormap]
  · intro c hc
    simp only [applyColormap, List.mem_map] at hc
    obtain ⟨x, _, rfl⟩ := hc
    apply tableLookup_unit _ hne hb
    · by_cases hdeg : cmax = cmin
      · simp [hdeg]
      · simp only [if_neg hdeg]
        exact (clamp01_unit _).1
    · by_cases hdeg : cmax = cmin
      · simp [hdeg]
      · simp only [if_neg hdeg]
        exact (clamp01_unit _).2

/-- Witness for C2 at the inputs of `test_colormap_normalization`
(values outside the range `[0, 10]`). -/
theorem applyColormap_length_and_bounds_witness :
    (0 : ℚ) < 10 ∧
    ((applyColormap [-10, 5, 20] "viridis" 0 10).length =
        [(-10 : ℚ), 5, 20].length ∧
      ∀ c ∈ applyColormap [-10, 5, 20] "viridis" 0 10, inUnitInterval c) :=
  ⟨by norm_num,
   applyColormap_length_and_bounds [-10, 5, 20] "viridis" 0 10
     (by norm_num)⟩

theorem updateTransform_existsObj (r : Registry) (nm : String)
    (t : List ℚ) (r2 : Registry)
    (h : r.updateTransform nm t = some r2) (m : String) :
    r2.existsObj m = r.existsObj m := by
  unfold Registry.updateTransform at h
  by_cases hex : r.existsObj nm
  · rw [if_pos hex] at h
    obtain rfl := Option.some_injective _ h.symm
    simp only [Registry.existsObj, List.any_map]
    congr 1
    funext p
    by_cases hp : p.1 = nm <;> simp [Function.comp, hp]
  · rw [if_neg hex] at h
    cases h

theorem updateTransform_none_of_not_exists (r : Registry) (nm : String)
    (t : List ℚ) (h : r.existsObj nm = false) :
    r.updateTransform nm t = none := by
  simp [Registry.updateTransform, h]

theorem batch_update_mem_skipped (us : List (String × List ℚ))
    (r : Registry) (b : String) (tb : List ℚ)
    (hb : r.existsObj b = false) (hmem : (b, tb) ∈ us) :
    b ∈ (batch_update r us).2 := by
  induction us generalizing r with
  | nil => cases hmem
  | cons u rest ih =>
    rcases List.mem_cons.mp hmem with heq | hmem2
    · obtain rfl := heq.symm
      rw [batch_update,
        updateTransform_none_of_not_exists r b tb hb]
      exact List.mem_cons_self _ _
    · cases hu : r.updateTransform u.1 u.2 with
      | none =>
        rw [batch_update, hu]
        exact List.mem_cons_of_mem _ (ih r hb hmem2)
      | some r2 =>
        rw [batch_update, hu]
        exact ih r2
          (by rw [updateTransform_existsObj r u.1 u.2 r2 hu b]; exact hb)
          hmem2

theorem batch_update_registry_filter (us : List (String × List ℚ))
    (r : Registry) (b : String) (hb : r.existsObj b = false) :
    (batch_update r us).1 =
      (batch_update r (us.filter (fun u => u.1 ≠ b))).1 := by
  induction us generalizing r with
  | nil => rfl
  | cons u rest ih =>
    by_cases hub : u.1 = b
    · have hnone : r.updateTransform u.1 u.2 = none := by
        rw [hub]
        exact updateTransform_none_of_not_exists r b u.2 hb
      have hfil : (u :: rest).filter (fun x => x.1 ≠ b) =
          rest.filter (fun x => x.1 ≠ b) := by
        simp [List.filter_cons, hub]
      rw [hfil, batch_update, hnone]
      exact ih r hb
    · have hfil : (u :: rest).filter (fun x => x.1 ≠ b) =
          u :: rest.filter (fun x => x.1 ≠ b) := by
        simp [List.filter_cons, hub]
      rw [hfil]
      cases hu : r.updateTransform u.1 u.2 with
      | none =>
        rw [batch_update, hu, batch_update, hu]
        exact ih r hb
      | some r2 =>
        rw [batch_update, hu, batch_update, hu]
        exact ih r2
          (by rw [updateTransform_existsObj r u.1 u.2 r2 hu b]; exact hb)

/-- C1: a `batch_update` whose mapping holds an entry keyed by an
undeclared name does not abort the batch (the model is total and skips
that single entry): the `UnknownObject` condition for the bad name is
surfaced in the skip list, and the resulting registry — in particular
the recorded last-known transform of every declared object — is exactly the
one obtained as if the bad entry had never been present. -/
theorem batch_update_unknown_entry_skipped (r : Registry)
    (us : List (String × List ℚ)) (b : String) (tb : List ℚ)
    (hb : r.existsObj b = false) (hmem : (b, tb) ∈ us) :
    b ∈ (batch_update r us).2 ∧
    (batch_update r us).1 =
      (batch_update r (us.filter (fun u => u.1 ≠ b))).1 :=
  ⟨batch_update_mem_skipped us r b tb hb hmem,
   batch_update_registry_filter us r b hb⟩

/-- Witness for C1: declare `"a"`, then batch-update the undeclared
`"b"`. -/
theorem batch_update_unknown_entry_skipped_witness :
    ((Registry.empty.declare "a" .primitive).existsObj "b" = false) ∧
    (("b", ([] : List ℚ)) ∈ [("b", ([] : List ℚ))]) ∧
    ("b" ∈ (batch_update (Registry.empty.declare "a" .primitive)
        [("b", ([] : List ℚ))]).2 ∧
      (batch_update (Registry.empty.declare "a" .primitive)
          [("b", ([] : List ℚ))]).1 =
        (batch_update (Registry.empty.declare "a" .primitive)
          ([("b", ([] : List ℚ))].filter (fun u => u.1 ≠ "b"))).1) :=
  ⟨by decide, List.mem_singleton.mpr rfl,
   batch_update_unknown_entry_skipped (Registry.empty.declare "a" .primitive)
     [("b", ([] : List ℚ))] "b" [] (by decide)
     (List.mem_singleton.mpr rfl)⟩

end ThreejsViewer
